import Mathlib

/-!
Verification development for the lucky-day prediction engine
(source file: 好日子预测网页(1).txt.py).

The core engine is embedded shallowly:
* the four fixed entropy-method weights (source lines 15-18) as exact
  rationals of the decimal literals;
* the moon-phase classifier (lines 29-45) as a function of the phase
  fraction `phase = moon.phase / 100`; the fraction itself is produced by
  the external `ephem` astronomy library and is treated as an input here;
* the Gregorian calendar arithmetic of Python `datetime.date` (ordinals,
  weekday with Monday = 0), Thanksgiving (lines 47-52), the Western
  computus of `dateutil.easter` (called at line 62), and the holiday
  classifier (lines 54-74);
* the log-odds fusion (lines 76-83 and 107-123) over the reals, Python
  floats being modelled by real numbers;
* the probability-table lookup (lines 101-105): a pandas filter followed
  by `.values[0]`, which fails (IndexError, a LookupError) on an empty
  filter result, modelled by `Option`.

Python integer division and modulo floor toward negative infinity; all
divisors appearing below are positive, for which Lean integer `/` and `%`
(Euclidean) agree with Python, so they are used directly.
-/

namespace LuckyDay

/-! ### Fixed entropy-method weights, source lines 15-18 -/

/-- 星期权重, source line 15. -/
def OMEGA_WEEKDAY : ℚ := 0.0392382881

/-- 日期权重, source line 16. -/
def OMEGA_DAY : ℚ := 0.0964037618

/-- 月相权重, source line 17. -/
def OMEGA_MOON : ℚ := 0.1747364794

/-- 节假日权重, source line 18. -/
def OMEGA_HOLIDAY : ℚ := 0.6896214708

/-! ### Moon-phase classification, source lines 29-45 -/

/-- Classification of a moon-phase fraction, source lines 36-45.  The
fraction `phase = moon.phase / 100` is computed by the external `ephem`
library (lines 31-34) and is taken here as the input. -/
def get_moon_phase (phase : ℚ) : String :=
  if 0.48 ≤ phase ∧ phase ≤ 0.52 then "满月"
  else if 0.23 ≤ phase ∧ phase < 0.27 then "上弦月"
  else if 0.73 ≤ phase ∧ phase < 0.77 then "下弦月"
  else if phase < 0.1 ∨ 0.9 < phase then "残月"
  else "其他"

/-! ### Python `datetime.date` calendar arithmetic -/

/-- Gregorian leap-year test, as in the Python `datetime` module. -/
def isLeap (y : ℕ) : Bool := y % 4 == 0 && (y % 100 != 0 || y % 400 == 0)

/-- Days in year `y` strictly before month `m` (Python
`datetime._days_before_month`). -/
def daysBeforeMonth (y : ℕ) (m : ℤ) : ℤ :=
  (if m ≤ 1 then 0 else if m = 2 then 31 else if m = 3 then 59
   else if m = 4 then 90 else if m = 5 then 120 else if m = 6 then 151
   else if m = 7 then 181 else if m = 8 then 212 else if m = 9 then 243
   else if m = 10 then 273 else if m = 11 then 304 else 334)
  + (if 2 < m ∧ isLeap y = true then 1 else 0)

/-- Days strictly before January 1 of year `y` (Python
`datetime._days_before_year`). -/
def daysBeforeYear (y : ℕ) : ℤ :=
  365 * ((y : ℤ) - 1) + ((y : ℤ) - 1) / 4 - ((y : ℤ) - 1) / 100
    + ((y : ℤ) - 1) / 400

/-- Proleptic-Gregorian ordinal of a date (Python `date.toordinal`,
January 1 of year 1 has ordinal 1). -/
def toOrdinal (y : ℕ) (m d : ℤ) : ℤ := daysBeforeYear y + daysBeforeMonth y m + d

/-- Python `date.weekday` of an ordinal: Monday = 0 .. Sunday = 6. -/
def pyWeekday (o : ℤ) : ℤ := (o + 6) % 7

/-! ### Thanksgiving, source lines 47-52 -/

/-- 计算感恩节日期（11月第四个周四）, source lines 47-52, returned as the
ordinal of the resulting date.  `timedelta(weeks=3)` is 21 days. -/
def get_thanksgiving (year : ℕ) : ℤ :=
  let nov1 := toOrdinal year 11 1
  let days_until_thursday := (3 - pyWeekday nov1) % 7
  let first_thursday := nov1 + days_until_thursday
  first_thursday + 21

/-! ### Easter, the `dateutil.easter` Western computus called at line 62 -/

/-- The Western (Gregorian) computus of `dateutil.easter.easter`, the
third-party function imported at source line 12 and called at line 62;
returns the (month, day) pair of Easter Sunday.  All divisors are
positive, so Lean `/` and `%` on ℤ coincide with Python floor division
and modulo. -/
def easter (year : ℕ) : ℤ × ℤ :=
  let y : ℤ := year
  let g := y % 19
  let c := y / 100
  let h := (c - c / 4 - (8 * c + 13) / 25 + 19 * g + 15) % 30
  let i := h - (h / 28) * (1 - (h / 28) * (29 / (h + 1)) * ((21 - g) / 11))
  let j := (y + y / 4 + i + 2 - c + c / 4) % 7
  let p := i - j
  let d := 1 + (p + 27 + (p + 6) / 40) % 31
  let m := 3 + (p + 26) / 30
  (m, d)

/-- Ordinal of Easter Sunday of the given year. -/
def easterOrdinal (year : ℕ) : ℤ :=
  toOrdinal year (easter year).1 (easter year).2

/-! ### Holiday status, source lines 54-74 -/

/-- The four holiday dates of a year built at source lines 59-64
(Christmas, New Year, Easter, Thanksgiving), as ordinals. -/
def holidays (year : ℕ) : List ℤ :=
  [toOrdinal year 12 25, toOrdinal year 1 1, easterOrdinal year,
   get_thanksgiving year]

/-- 判断节假日状态, source lines 54-74.  A date is passed as year, month,
day; `date_only` is its ordinal.  The Python `in` test and the two `for`
loops over the holiday list become `contains` and `any`. -/
def get_holiday_status (year : ℕ) (m d : ℤ) : String :=
  let date_only := toOrdinal year m d
  let hs := holidays year
  if hs.contains date_only then "节假日当天"
  else if hs.any (fun h => date_only == h - 1) then "节假日前一天"
  else if hs.any (fun h => date_only == h + 1) then "节假日后一天"
  else "其他"

/-- Restatement of the holiday classification in the form of the claim
text: exact match first, then existence of a holiday one day after the
date, then one day before, else Other. -/
def holidayStatusSpec (year : ℕ) (m d : ℤ) : String :=
  let o := toOrdinal year m d
  if o ∈ holidays year then "节假日当天"
  else if ∃ h ∈ holidays year, o = h - 1 then "节假日前一天"
  else if ∃ h ∈ holidays year, o = h + 1 then "节假日后一天"
  else "其他"

/-! ### Log-odds fusion, source lines 76-83 and 107-123 -/

/-- 概率转换为log-odds, source lines 76-79.  `np.clip(p, 1e-10, 1-1e-10)`
is the minimum of the upper bound with the maximum of `p` and the lower
bound. -/
noncomputable def prob_to_logodds (p : ℝ) : ℝ :=
  let p' := min (max p 1e-10) (1 - 1e-10)
  Real.log (p' / (1 - p'))

/-- log-odds转换为概率, source lines 81-83. -/
noncomputable def logodds_to_prob (logodds : ℝ) : ℝ :=
  Real.exp logodds / (1 + Real.exp logodds)

/-- The weighted log-odds sum of source lines 108-117, as a function of
the four looked-up probabilities. -/
noncomputable def logodds_all (p_weekday p_day p_moon p_holiday : ℝ) : ℝ :=
  (OMEGA_WEEKDAY : ℝ) * prob_to_logodds p_weekday
    + (OMEGA_DAY : ℝ) * prob_to_logodds p_day
    + (OMEGA_MOON : ℝ) * prob_to_logodds p_moon
    + (OMEGA_HOLIDAY : ℝ) * prob_to_logodds p_holiday

/-- The fused probability of source line 120. -/
noncomputable def p_all (p_weekday p_day p_moon p_holiday : ℝ) : ℝ :=
  logodds_to_prob (logodds_all p_weekday p_day p_moon p_holiday)

/-- The classification of source line 123: `p_all >= 0.5`. -/
def is_good_day (p_weekday p_day p_moon p_holiday : ℝ) : Prop :=
  0.5 ≤ p_all p_weekday p_day p_moon p_holiday

/-! ### Spec-side formulation of the fusion pipeline -/

/-- Clamp of a probability to [1e-10, 1-1e-10], as worded in the spec. -/
noncomputable def clamp_spec (p : ℝ) : ℝ := max 1e-10 (min p (1 - 1e-10))

/-- The logit `ln(p / (1-p))`, as worded in the spec. -/
noncomputable def logit_spec (p : ℝ) : ℝ := Real.log (p / (1 - p))

/-- The logistic inverse `exp(x) / (1 + exp(x))`, as worded in the spec. -/
noncomputable def sigmoid_spec (x : ℝ) : ℝ := Real.exp x / (1 + Real.exp x)

/-- The fused probability as worded in the claim: the logistic inverse of
the weighted sum of the clamped log-odds, operations applied in the order
transform, weight, sum, inverse-transform. -/
noncomputable def fused_prob_spec (p_weekday p_day p_moon p_holiday : ℝ) : ℝ :=
  sigmoid_spec
    ((OMEGA_WEEKDAY : ℝ) * logit_spec (clamp_spec p_weekday)
      + (OMEGA_DAY : ℝ) * logit_spec (clamp_spec p_day)
      + (OMEGA_MOON : ℝ) * logit_spec (clamp_spec p_moon)
      + (OMEGA_HOLIDAY : ℝ) * logit_spec (clamp_spec p_holiday))

/-! ### Probability-table lookup and the orchestrator, lines 86-138 -/

/-- One probability table: rows of (bucket label, probability).  The
lookup of source lines 102-105 filters the rows whose label column equals
the bucket name and takes `.values[0]`, the first remaining value;
`.values[0]` on an empty selection raises IndexError, a LookupError,
modelled by `none`. -/
def lookupProb (table : List (String × ℝ)) (key : String) : Option ℝ :=
  ((table.filter (fun r => r.1 == key)).map (fun r => r.2)).head?

/-- The result record returned at source lines 125-138. -/
structure PredictionResult where
  date : ℕ × ℤ × ℤ
  weekday_name : String
  day_name : String
  moon_phase : String
  holiday_status : String
  p_weekday : ℝ
  p_day : ℝ
  p_moon : ℝ
  p_holiday : ℝ
  logodds_all : ℝ
  p_all : ℝ
  is_good_day : Prop

/-- The weekday bucket label of source lines 90-92: the Chinese
day-of-week name list indexed by the Python weekday of the date.  The
index is always in 0..6, so the default of `getD` is never used. -/
def weekday_name_of (year : ℕ) (m d : ℤ) : String :=
  ["周一", "周二", "周三", "周四", "周五", "周六", "周日"].getD
    (pyWeekday (toOrdinal year m d)).toNat ""

/-- 预测指定日期是否为幸运日, source lines 86-138.  The date is passed as
year, month, day; `phase` is the moon-phase fraction that the external
`ephem` library computes for that date (see `get_moon_phase`).  The four
table lookups happen in source order; the first failing lookup aborts the
prediction with no result. -/
noncomputable def predict_good_day (year : ℕ) (m d : ℤ) (phase : ℚ)
    (weekday_df day_df moon_df holiday_df : List (String × ℝ)) :
    Option PredictionResult :=
  let weekday_name := weekday_name_of year m d
  let day_name := toString d ++ "号"
  let moon_phase := get_moon_phase phase
  let holiday_status := get_holiday_status year m d
  do
    let p_weekday ← lookupProb weekday_df weekday_name
    let p_day ← lookupProb day_df day_name
    let p_moon ← lookupProb moon_df moon_phase
    let p_holiday ← lookupProb holiday_df holiday_status
    pure ⟨(year, m, d), weekday_name, day_name, moon_phase, holiday_status,
      p_weekday, p_day, p_moon, p_holiday,
      logodds_all p_weekday p_day p_moon p_holiday,
      p_all p_weekday p_day p_moon p_holiday,
      0.5 ≤ p_all p_weekday p_day p_moon p_holiday⟩

end LuckyDay

namespace LuckyDay

/-! ### Helper lemmas -/

/-- The two clamp spellings agree: clipping below at 1e-10 then above at
1-1e-10 equals clamping into the interval in the other association. -/
theorem clip_eq_clamp (p : ℝ) :
    min (max p 1e-10) (1 - 1e-10) = max 1e-10 (min p (1 - 1e-10)) := by
  rcases le_total p 1e-10 with h1 | h1 <;> rcases le_total p (1 - 1e-10) with h2 | h2 <;>
    simp [min_def, max_def] <;> split_ifs <;> linarith

/-- The correction term of the computus keeps `i` within 0..29. -/
theorem easter_i_bounds (g h : ℤ) (hg0 : 0 ≤ g) (hg : g < 19) (hh0 : 0 ≤ h)
    (hh : h < 30) :
    0 ≤ h - (h / 28) * (1 - (h / 28) * (29 / (h + 1)) * ((21 - g) / 11)) ∧
    h - (h / 28) * (1 - (h / 28) * (29 / (h + 1)) * ((21 - g) / 11)) ≤ 29 := by
  rcases (by omega : h ≤ 27 ∨ h = 28 ∨ h = 29) with h27 | rfl | rfl
  · have hz : h / 28 = 0 := by omega
    rw [hz]
    omega
  · norm_num
    omega
  · norm_num

/-- Easter falls in March or April, on a day-of-month between 1 and 31. -/
theorem easter_month_day (y : ℕ) :
    ((easter y).1 = 3 ∨ (easter y).1 = 4) ∧ 1 ≤ (easter y).2 ∧ (easter y).2 ≤ 31 := by
  simp only [easter]
  set g := (y : ℤ) % 19 with hgdef
  set c := (y : ℤ) / 100 with hcdef
  set h := (c - c / 4 - (8 * c + 13) / 25 + 19 * g + 15) % 30 with hhdef
  have hg0 : 0 ≤ g ∧ g < 19 := by omega
  have hh0 : 0 ≤ h ∧ h < 30 := by omega
  have hib := easter_i_bounds g h hg0.1 hg0.2 hh0.1 hh0.2
  set i := h - (h / 28) * (1 - (h / 28) * (29 / (h + 1)) * ((21 - g) / 11)) with hidef
  set j := ((y : ℤ) + (y : ℤ) / 4 + i + 2 - c + c / 4) % 7 with hjdef
  have hj0 : 0 ≤ j ∧ j < 7 := by omega
  refine ⟨?_, ?_, ?_⟩ <;> omega

/-- The logistic inverse undoes the logit on the open unit interval. -/
theorem sigmoid_logit (q : ℝ) (h0 : 0 < q) (h1 : q < 1) :
    logodds_to_prob (Real.log (q / (1 - q))) = q := by
  simp only [logodds_to_prob]
  have hd : (0:ℝ) < 1 - q := by linarith
  have hq : 0 < q / (1 - q) := div_pos h0 hd
  rw [Real.exp_log hq]
  have hne : (1:ℝ) - q ≠ 0 := ne_of_gt hd
  field_simp

/-- Inside the clamp interval the round trip is exact. -/
theorem roundtrip_exact (q : ℝ) (hq1 : 1e-10 ≤ q) (hq2 : q ≤ 1 - 1e-10) :
    logodds_to_prob (prob_to_logodds q) = q := by
  have hclip : min (max q 1e-10) (1 - 1e-10) = q := by
    rw [max_eq_left hq1, min_eq_left hq2]
  simp only [prob_to_logodds, hclip]
  exact sigmoid_logit q (by linarith [show (0:ℝ) < 1e-10 by norm_num])
    (by linarith [show (0:ℝ) < 1e-10 by norm_num])

/-- The clamped logit is monotone. -/
theorem prob_to_logodds_mono {p q : ℝ} (h : p ≤ q) :
    prob_to_logodds p ≤ prob_to_logodds q := by
  simp only [prob_to_logodds]
  set a := min (max p 1e-10) (1 - 1e-10) with ha
  set b := min (max q 1e-10) (1 - 1e-10) with hb
  have hab : a ≤ b := min_le_min (max_le_max h le_rfl) le_rfl
  have ha1 : (1e-10:ℝ) ≤ a := le_min (le_max_right _ _) (by norm_num)
  have hb2 : b ≤ 1 - 1e-10 := min_le_right _ _
  have ha2 : a ≤ 1 - 1e-10 := min_le_right _ _
  have hb1 : (1e-10:ℝ) ≤ b := le_min (le_max_right _ _) (by norm_num)
  have h0a : (0:ℝ) < a := lt_of_lt_of_le (by norm_num) ha1
  have h0b : (0:ℝ) < b := lt_of_lt_of_le (by norm_num) hb1
  have hda : (0:ℝ) < 1 - a := by nlinarith
  have hdb : (0:ℝ) < 1 - b := by nlinarith
  have hratio : a / (1 - a) ≤ b / (1 - b) := by
    rw [div_le_div_iff₀ hda hdb]
    nlinarith
  exact Real.log_le_log (div_pos h0a hda) hratio

/-- The logistic inverse is monotone. -/
theorem logodds_to_prob_mono {x y : ℝ} (h : x ≤ y) :
    logodds_to_prob x ≤ logodds_to_prob y := by
  simp only [logodds_to_prob]
  have hx := Real.exp_pos x
  have hy := Real.exp_pos y
  have hxy : Real.exp x ≤ Real.exp y := Real.exp_le_exp.mpr h
  rw [div_le_div_iff₀ (by linarith) (by linarith)]
  nlinarith

/-- A bucket with no row in the table makes the lookup fail. -/
theorem lookupProb_eq_none (table : List (String × ℝ)) (key : String)
    (h : ∀ r ∈ table, r.1 ≠ key) : lookupProb table key = none := by
  simp only [lookupProb]
  have hf : table.filter (fun r => r.1 == key) = [] := by
    rw [List.filter_eq_nil_iff]
    intro a ha
    simpa using h a ha
  rw [hf]
  rfl

/-! ### Claim theorems -/

/-- Claim C1: for all four looked-up probabilities, the fused probability
of `predict_good_day` (source lines 107-120) equals the logistic inverse
of the weighted sum of the clamped log-odds, with the operations applied
in the order transform, weight, sum, inverse-transform. -/
theorem C1_fused_probability_pipeline (p_weekday p_day p_moon p_holiday : ℝ) :
    p_all p_weekday p_day p_moon p_holiday =
      fused_prob_spec p_weekday p_day p_moon p_holiday := by
  simp only [p_all, fused_prob_spec, logodds_to_prob, sigmoid_spec, logodds_all,
    prob_to_logodds, logit_spec, clamp_spec, clip_eq_clamp]

/-- Claim C2, counterexample: the four weight constants do not satisfy
the claimed conjunction, because their exact rational sum is
1.0000000001 rather than 1.0. -/
theorem C2_weights_sum_counterexample :
    ¬ (0 ≤ OMEGA_WEEKDAY ∧ 0 ≤ OMEGA_DAY ∧ 0 ≤ OMEGA_MOON ∧ 0 ≤ OMEGA_HOLIDAY ∧
      OMEGA_WEEKDAY + OMEGA_DAY + OMEGA_MOON + OMEGA_HOLIDAY = 1) := by
  norm_num [OMEGA_WEEKDAY, OMEGA_DAY, OMEGA_MOON, OMEGA_HOLIDAY]

/-- Claim C2 as amended: the four weight constants are each non-negative
and their exact rational sum is 1.0000000001, one part in 10^10 above 1. -/
theorem C2_weights_amended :
    0 ≤ OMEGA_WEEKDAY ∧ 0 ≤ OMEGA_DAY ∧ 0 ≤ OMEGA_MOON ∧ 0 ≤ OMEGA_HOLIDAY ∧
      OMEGA_WEEKDAY + OMEGA_DAY + OMEGA_MOON + OMEGA_HOLIDAY = 1.0000000001 := by
  norm_num [OMEGA_WEEKDAY, OMEGA_DAY, OMEGA_MOON, OMEGA_HOLIDAY]

/-- Claim C3: for every input, the classification equals thresholding the
fused probability at 0.5, which is equivalent to thresholding the fused
log-odds at 0. -/
theorem C3_threshold_equivalence (p_weekday p_day p_moon p_holiday : ℝ) :
    (is_good_day p_weekday p_day p_moon p_holiday ↔
      0.5 ≤ p_all p_weekday p_day p_moon p_holiday) ∧
    (0.5 ≤ p_all p_weekday p_day p_moon p_holiday ↔
      0 ≤ logodds_all p_weekday p_day p_moon p_holiday) := by
  refine ⟨Iff.rfl, ?_⟩
  simp only [p_all, logodds_to_prob]
  set x := logodds_all p_weekday p_day p_moon p_holiday with hx
  have he : 0 < Real.exp x := Real.exp_pos x
  have h1 : (0:ℝ) < 1 + Real.exp x := by linarith
  rw [le_div_iff₀ h1]
  constructor
  · intro h
    rw [← Real.one_le_exp_iff]
    linarith
  · intro h
    have h2 : (1:ℝ) ≤ Real.exp x := Real.one_le_exp_iff.mpr h
    linarith

/-- Claim C4: raising any of the four input probabilities (none of them
lowered) never decreases the fused probability; in particular raising a
single one with the other three fixed never decreases it. -/
theorem C4_fusion_monotone (pw pw' pd pd' pm pm' ph ph' : ℝ)
    (h1 : pw ≤ pw') (h2 : pd ≤ pd') (h3 : pm ≤ pm') (h4 : ph ≤ ph') :
    p_all pw pd pm ph ≤ p_all pw' pd' pm' ph' := by
  apply logodds_to_prob_mono
  simp only [logodds_all]
  have w1 : (0:ℝ) ≤ (OMEGA_WEEKDAY : ℝ) := by norm_num [OMEGA_WEEKDAY]
  have w2 : (0:ℝ) ≤ (OMEGA_DAY : ℝ) := by norm_num [OMEGA_DAY]
  have w3 : (0:ℝ) ≤ (OMEGA_MOON : ℝ) := by norm_num [OMEGA_MOON]
  have w4 : (0:ℝ) ≤ (OMEGA_HOLIDAY : ℝ) := by norm_num [OMEGA_HOLIDAY]
  have m1 := prob_to_logodds_mono h1
  have m2 := prob_to_logodds_mono h2
  have m3 := prob_to_logodds_mono h3
  have m4 := prob_to_logodds_mono h4
  have q1 := mul_le_mul_of_nonneg_left m1 w1
  have q2 := mul_le_mul_of_nonneg_left m2 w2
  have q3 := mul_le_mul_of_nonneg_left m3 w3
  have q4 := mul_le_mul_of_nonneg_left m4 w4
  linarith

/-- Witness for C4 at a concrete input. -/
theorem C4_fusion_monotone_witness :
    p_all 0.2 0.3 0.4 0.5 ≤ p_all 0.3 0.4 0.5 0.6 :=
  C4_fusion_monotone 0.2 0.3 0.3 0.4 0.4 0.5 0.5 0.6 (by norm_num) (by norm_num)
    (by norm_num) (by norm_num)

/-- Claim C5: the moon-phase classifier realizes exactly the claimed
ranges, with the priority order immaterial because the ranges are
pairwise disjoint; a fraction of exactly 0.50 classifies as full moon and
0.27 classifies as other, not first quarter. -/
theorem C5_moon_phase_classification :
    (∀ phase : ℚ,
      (get_moon_phase phase = "满月" ↔ 0.48 ≤ phase ∧ phase ≤ 0.52) ∧
      (get_moon_phase phase = "上弦月" ↔ 0.23 ≤ phase ∧ phase < 0.27) ∧
      (get_moon_phase phase = "下弦月" ↔ 0.73 ≤ phase ∧ phase < 0.77) ∧
      (get_moon_phase phase = "残月" ↔ (phase < 0.1 ∨ 0.9 < phase)) ∧
      (get_moon_phase phase = "其他" ↔
        ¬(0.48 ≤ phase ∧ phase ≤ 0.52) ∧ ¬(0.23 ≤ phase ∧ phase < 0.27) ∧
        ¬(0.73 ≤ phase ∧ phase < 0.77) ∧ ¬(phase < 0.1 ∨ 0.9 < phase))) ∧
    get_moon_phase 0.5 = "满月" ∧ get_moon_phase 0.27 = "其他" := by
  refine ⟨fun phase => ?_, ?_, ?_⟩
  · unfold get_moon_phase
    split_ifs with h1 h2 h3 h4
    · have ha := h1.1
      have hb := h1.2
      refine ⟨?_, ?_, ?_, ?_, ?_⟩ <;> simp_all <;> try tauto
      all_goals try intro hx
      all_goals try constructor
      all_goals linarith
    · have ha := h2.1
      have hb := h2.2
      refine ⟨?_, ?_, ?_, ?_, ?_⟩ <;> simp_all <;> try tauto
      all_goals try intro hx
      all_goals try constructor
      all_goals linarith
    · have ha := h3.1
      have hb := h3.2
      refine ⟨?_, ?_, ?_, ?_, ?_⟩ <;> simp_all <;> try tauto
      all_goals constructor
      all_goals linarith
    · refine ⟨?_, ?_, ?_, ?_, ?_⟩ <;> simp_all
    · refine ⟨?_, ?_, ?_, ?_, ?_⟩ <;> simp_all
  · simp only [get_moon_phase]
    norm_num
  · simp only [get_moon_phase]
    norm_num

/-- Claim C6: the holiday classifier agrees with the claimed ordered
rules: exact holiday match first, then day-before, then day-after, else
other, over the four holidays of the year of the date. -/
theorem C6_holiday_status_rules (year : ℕ) (m d : ℤ) :
    get_holiday_status year m d = holidayStatusSpec year m d := by
  simp [get_holiday_status, holidayStatusSpec]

/-- Claim C7: Thanksgiving falls on a Thursday between November 22 and
November 28 of its year, the fourth Thursday of November; in particular
the 2027 date is November 25. -/
theorem C7_thanksgiving_fourth_thursday :
    (∀ year : ℕ, ∃ d : ℤ, 22 ≤ d ∧ d ≤ 28 ∧
      get_thanksgiving year = toOrdinal year 11 d ∧
      pyWeekday (get_thanksgiving year) = 3) ∧
    get_thanksgiving 2027 = toOrdinal 2027 11 25 := by
  constructor
  · intro year
    refine ⟨(3 - pyWeekday (toOrdinal year 11 1)) % 7 + 22, ?_, ?_, ?_, ?_⟩ <;>
      simp only [get_thanksgiving, toOrdinal, pyWeekday] <;> omega
  · decide

/-- Claim C8: for probabilities in the open unit interval the round trip
through log-odds returns the input up to 1e-9 (it is exact between the
clamp bounds), and at or beyond the clamp bounds it returns the bound. -/
theorem C8_logodds_roundtrip (p : ℝ) :
    (0 < p → p < 1 →
      |logodds_to_prob (prob_to_logodds p) - p| ≤ 1e-9) ∧
    (p ≤ 1e-10 → logodds_to_prob (prob_to_logodds p) = 1e-10) ∧
    (1 - 1e-10 ≤ p → logodds_to_prob (prob_to_logodds p) = 1 - 1e-10) := by
  have hlow : ∀ r : ℝ, r ≤ 1e-10 → logodds_to_prob (prob_to_logodds r) = 1e-10 := by
    intro r hr
    have hclipv : min (max r 1e-10) (1 - 1e-10) = 1e-10 := by
      rw [max_eq_right hr]
      exact min_eq_left (by norm_num)
    simp only [prob_to_logodds, hclipv]
    exact sigmoid_logit 1e-10 (by norm_num) (by norm_num)
  have hhigh : ∀ r : ℝ, 1 - 1e-10 ≤ r →
      logodds_to_prob (prob_to_logodds r) = 1 - 1e-10 := by
    intro r hr
    have h1 : (1e-10:ℝ) ≤ r := by linarith [show (1e-10:ℝ) ≤ 1 - 1e-10 by norm_num]
    have hclipv : min (max r 1e-10) (1 - 1e-10) = 1 - 1e-10 := by
      rw [max_eq_left h1]
      exact min_eq_right hr
    simp only [prob_to_logodds, hclipv]
    exact sigmoid_logit (1 - 1e-10) (by norm_num) (by norm_num)
  refine ⟨?_, hlow p, hhigh p⟩
  intro h0 h1
  rcases le_total p 1e-10 with hp | hp
  · rw [hlow p hp, abs_le]
    constructor <;> nlinarith
  · rcases le_total p (1 - 1e-10) with hp2 | hp2
    · rw [roundtrip_exact p hp hp2]
      norm_num
    · rw [hhigh p hp2, abs_le]
      constructor <;> nlinarith

/-- Witness for C8 at the concrete probability one half. -/
theorem C8_logodds_roundtrip_witness :
    |logodds_to_prob (prob_to_logodds 0.5) - 0.5| ≤ 1e-9 :=
  (C8_logodds_roundtrip 0.5).1 (by norm_num) (by norm_num)

/-- Claim C9: when any one of the four computed buckets has no matching
row in its table, the lookup inside `predict_good_day` fails and the
prediction produces no result; no default probability is substituted. -/
theorem C9_missing_bucket_fails (year : ℕ) (m d : ℤ) (phase : ℚ)
    (weekday_df day_df moon_df holiday_df : List (String × ℝ))
    (hmiss :
      (∀ r ∈ weekday_df, r.1 ≠ weekday_name_of year m d) ∨
      (∀ r ∈ day_df, r.1 ≠ toString d ++ "号") ∨
      (∀ r ∈ moon_df, r.1 ≠ get_moon_phase phase) ∨
      (∀ r ∈ holiday_df, r.1 ≠ get_holiday_status year m d)) :
    predict_good_day year m d phase weekday_df day_df moon_df holiday_df = none := by
  rcases hmiss with h | h | h | h
  · simp [predict_good_day, lookupProb_eq_none _ _ h]
  · cases hw : lookupProb weekday_df (weekday_name_of year m d) <;>
      simp [predict_good_day, hw, lookupProb_eq_none _ _ h]
  · cases hw : lookupProb weekday_df (weekday_name_of year m d) <;>
    cases hd : lookupProb day_df (toString d ++ "号") <;>
      simp [predict_good_day, hw, hd, lookupProb_eq_none _ _ h]
  · cases hw : lookupProb weekday_df (weekday_name_of year m d) <;>
    cases hd : lookupProb day_df (toString d ++ "号") <;>
    cases hm : lookupProb moon_df (get_moon_phase phase) <;>
      simp [predict_good_day, hw, hd, hm, lookupProb_eq_none _ _ h]

/-- Witness for C9: empty tables make the prediction fail. -/
theorem C9_missing_bucket_fails_witness :
    predict_good_day 2027 3 13 0.5 [] [] [] [] = none :=
  C9_missing_bucket_fails 2027 3 13 0.5 [] [] [] [] (Or.inl (by simp))

/-- Claim C10: December 31 of any year classifies as Other, because the
holiday list is built only from the year of the date itself, so January 1
of the next year is never compared against. -/
theorem C10_dec31_is_other (year : ℕ) :
    get_holiday_status year 12 31 = "其他" := by
  have hE := easter_month_day year
  have h12 : daysBeforeMonth year 12 = 334 + (if isLeap year = true then 1 else 0) := by
    norm_num [daysBeforeMonth]
  have h11 : daysBeforeMonth year 11 = 304 + (if isLeap year = true then 1 else 0) := by
    norm_num [daysBeforeMonth]
  have h03 : daysBeforeMonth year 3 = 59 + (if isLeap year = true then 1 else 0) := by
    norm_num [daysBeforeMonth]
  have h04 : daysBeforeMonth year 4 = 90 + (if isLeap year = true then 1 else 0) := by
    norm_num [daysBeforeMonth]
  have h01 : daysBeforeMonth year 1 = 0 := by
    norm_num [daysBeforeMonth]
  have hLb : (0:ℤ) ≤ (if isLeap year = true then 1 else 0) ∧
      (if isLeap year = true then (1:ℤ) else 0) ≤ 1 := by
    split_ifs <;> norm_num
  have hT : toOrdinal year 11 1 + 21 ≤ get_thanksgiving year ∧
      get_thanksgiving year ≤ toOrdinal year 11 1 + 27 := by
    simp only [get_thanksgiving, pyWeekday]
    omega
  have hEord : easterOrdinal year = daysBeforeYear year +
      daysBeforeMonth year (easter year).1 + (easter year).2 := rfl
  simp only [get_holiday_status, holidays, List.contains_cons, List.contains_nil,
    List.any_cons, List.any_nil, Bool.or_false, beq_iff_eq]
  rcases hE.1 with hm | hm <;>
    rw [hm] at hEord <;>
    [rw [h03] at hEord; rw [h04] at hEord] <;>
    simp only [toOrdinal] at * <;>
    rw [if_neg, if_neg, if_neg] <;>
    simp only [Bool.or_eq_true, beq_iff_eq, not_or] <;>
    omega

end LuckyDay
